import Mathlib

/-!
# Verification of `simple-file-uploader-slop` (`src/app/main.py`)

Shallow embedding of the FastAPI file-upload application: a single table of
file records, two blob-storage modes (bytes inline in the record, or a file
on local disk), and four handlers (list/render, upload, download, delete).

Modelling conventions:
* Bytes are `List Nat` (one entry per byte).
* The database table `files` is a list of `FileRecord` in insertion order;
  `INSERT` appends, `SELECT … WHERE id = … .first()` is `List.find?`,
  `DELETE … WHERE id = …` is a filter.
* The local filesystem under the upload directory is an association list
  from path to bytes; `open(path, "wb")` overwrites, `os.remove` deletes,
  `os.path.exists` is key membership.
* Record ids (`uuid.uuid4()`) and timestamps (`datetime.now`) are passed to
  the handlers as explicit arguments, since they are external inputs.
* Python truthiness of strings matters in several places
  (`file.filename or "unnamed"`, `content_length and …`, `row["path"] and …`,
  `content_type or …`): an absent value (`None`) and the empty string are
  both falsy, and the embedding reproduces that case split explicitly.
* The order in which the handler touches the request body, the disk and the
  database is recorded as a list of events (`Ev`), so that ordering claims
  ("before reading the body", "no bytes written") are statable.
-/

deriving instance DecidableEq for Except

namespace Uploader

/-- Raw bytes, one `Nat` per byte. -/
abbrev Bytes := List Nat

/-- A row of the `files` table (`main.py` lines 43-54).  `uploaded_at` is an
abstract timestamp. -/
structure FileRecord where
  id : Nat
  filename : String
  content_type : Option String
  size_bytes : Nat
  data : Bytes
  path : Option String
  storage_type : String
  uploaded_at : Nat
deriving Repr, DecidableEq

/-- The local filesystem under the upload directory: path ↦ contents. -/
abbrev Disk := List (String × Bytes)

/-- `open(path).read()` / reading a file: first entry with this path. -/
def Disk.readBytes (d : Disk) (p : String) : Option Bytes :=
  (d.find? (fun e => e.1 == p)).map (fun e => e.2)

/-- `os.path.exists(p)`. -/
def Disk.pathExists (d : Disk) (p : String) : Bool :=
  (Disk.readBytes d p).isSome

/-- `open(path, "wb"); f.write(data)`: create or overwrite the file. -/
def Disk.writeBytes (d : Disk) (p : String) (b : Bytes) : Disk :=
  (p, b) :: d.filter (fun e => e.1 != p)

/-- `os.remove(p)`. -/
def Disk.removePath (d : Disk) (p : String) : Disk :=
  d.filter (fun e => e.1 != p)

/-- Combined durable state: the `files` table plus the upload directory. -/
structure St where
  store : List FileRecord
  disk : Disk
deriving Repr, DecidableEq

/-- `SELECT * FROM files WHERE id = fid … .first()`. -/
def lookup (store : List FileRecord) (fid : Nat) : Option FileRecord :=
  store.find? (fun r => r.id == fid)

/-- An `HTTPException(status_code, detail)`. -/
structure HttpError where
  status : Nat
  detail : String
deriving Repr, DecidableEq

/-- The successful response of the upload and delete handlers:
`RedirectResponse(url=".", status_code=303)`. -/
inductive UpResp where
  | redirect (url : String) (status : Nat)
deriving Repr, DecidableEq

/-- Observable side-effect events of a handler invocation, in program order. -/
inductive Ev where
  /-- `await request.form()` (line 288): parses the multipart request body.
  Parsing consumes the whole body from the request stream (and FastAPI's
  `File(...)` parameter already forces this parse before the handler runs). -/
  | formParse
  /-- `await file.read()` (line 295): load the uploaded file's bytes. -/
  | fileRead (b : Bytes)
  /-- writing a file under the upload directory (lines 308-309). -/
  | diskWrite (p : String) (b : Bytes)
  /-- `INSERT INTO files …` (lines 314-326). -/
  | dbInsert (r : FileRecord)
  /-- `os.remove` succeeding during delete (line 362). -/
  | diskRemove (p : String)
  /-- the `print(f"Warning: failed to delete local file …")` on line 364. -/
  | logWarn (p : String)
deriving Repr, DecidableEq

/-- Result of a state-changing handler: HTTP outcome, resulting durable
state (unchanged when an `HTTPException` was raised before any effect),
and the effect events in order. -/
structure HandlerResult where
  out : Except HttpError UpResp
  st : St
  events : List Ev
deriving Repr

/-- `MAX_UPLOAD_MB * 1024 * 1024` (line 292): the size limit in bytes, from
the configured limit in megabytes. -/
def maxBytes (maxUploadMb : Nat) : Nat := maxUploadMb * 1024 * 1024

/-- `UPLOAD_DIR` (line 33). -/
def UPLOAD_DIR : String := "/tmp/uploads"

/-- Lines 291-292: `content_length = request.headers.get("content-length");
if content_length and int(content_length) > MAX_UPLOAD_MB * 1024 * 1024`.
The header is modelled as `Option Nat`: `none` when absent or empty
(both falsy in Python), `some n` for a numeric value `n`. -/
def clExceeds (maxUploadMb : Nat) (contentLength : Option Nat) : Bool :=
  match contentLength with
  | some n => decide (n > maxBytes maxUploadMb)
  | none => false

/-- Line 300: `safe_name = (file.filename or "unnamed")[:512]`.
`None` and `""` are falsy; Python slicing takes the first 512 characters. -/
def safeName (filename : Option String) : String :=
  String.mk ((match filename with
    | none => "unnamed"
    | some s => if s = "" then "unnamed" else s).toList.take 512)

/-- Line 307: `os.path.join(UPLOAD_DIR, f"{rec_id}_{safe_name}")`. -/
def localPath (recId : Nat) (name : String) : String :=
  UPLOAD_DIR ++ "/" ++ toString recId ++ "_" ++ name

/-- The upload request as the handler sees it.  `contentLength` is the
parsed `content-length` header (`none` when absent or empty), `body` the
bytes of the uploaded file part, `storage` the `storage` form field. -/
structure UploadRequest where
  contentLength : Option Nat
  filename : Option String
  contentType : Option String
  body : Bytes
  storage : Option String
deriving Repr, DecidableEq

/-- The record inserted for `storage_choice != "local"` (lines 314-326 with
`path = None`, `storage_type = "db"`, `data` the full bytes). -/
def dbRecord (req : UploadRequest) (recId now : Nat) : FileRecord :=
  ⟨recId, safeName req.filename, req.contentType, req.body.length,
   req.body, none, "db", now⟩

/-- The record inserted for `storage_choice == "local"` (lines 306-326:
bytes go to disk, `data = b""`, `path` set, `storage_type = "local"`). -/
def localRecord (req : UploadRequest) (recId now : Nat) : FileRecord :=
  ⟨recId, safeName req.filename, req.contentType, req.body.length,
   [], some (localPath recId (safeName req.filename)), "local", now⟩

/-- `POST /upload` (lines 286-328).  Control flow in source order:
form parse (line 288), content-length header check (291-293, raises 413),
`file.read()` (295), empty check (297-298, raises 400), then for
`storage == "local"` a disk write before the insert, else an inline
insert; on success a 303 redirect to `"."`.  `recId` is the fresh
`uuid.uuid4()` and `now` the insertion timestamp. -/
def upload (maxUploadMb : Nat) (st : St) (req : UploadRequest)
    (recId now : Nat) : HandlerResult :=
  if clExceeds maxUploadMb req.contentLength then
    ⟨Except.error ⟨413, "File too large"⟩, st, [Ev.formParse]⟩
  else if req.body.length = 0 then
    ⟨Except.error ⟨400, "Empty file"⟩, st,
     [Ev.formParse, Ev.fileRead req.body]⟩
  else if req.storage.getD "db" = "local" then
    ⟨Except.ok (UpResp.redirect "." 303),
     ⟨st.store ++ [localRecord req recId now],
      Disk.writeBytes st.disk (localPath recId (safeName req.filename)) req.body⟩,
     [Ev.formParse, Ev.fileRead req.body,
      Ev.diskWrite (localPath recId (safeName req.filename)) req.body,
      Ev.dbInsert (localRecord req recId now)]⟩
  else
    ⟨Except.ok (UpResp.redirect "." 303),
     ⟨st.store ++ [dbRecord req recId now], st.disk⟩,
     [Ev.formParse, Ev.fileRead req.body, Ev.dbInsert (dbRecord req recId now)]⟩

/-- The successful download response: body bytes, `media_type`, and the
`Content-Disposition` header value. -/
structure DlResp where
  bytes : Bytes
  media_type : String
  content_disposition : String
deriving Repr, DecidableEq

/-- Python `x or default` for an optional string: `None` and `""` are falsy. -/
def pyOr (o : Option String) (default : String) : String :=
  match o with
  | none => default
  | some s => if s = "" then default else s

/-- Lines 344 and 350: `f'attachment; filename="{row["filename"]}"'`. -/
def contentDisposition (name : String) : String :=
  "attachment; filename=\"" ++ name ++ "\""

/-- `GET /download/{file_id}` (lines 330-351).  Look up the row (404 when
absent); for `storage_type == "local"`, 404 when the path is falsy
(`None` or `""`) or no file exists at it, otherwise serve the disk bytes;
otherwise serve `row["data"]`.  `media_type` is
`row["content_type"] or "application/octet-stream"`. -/
def download (st : St) (fid : Nat) : Except HttpError DlResp :=
  match lookup st.store fid with
  | none => Except.error ⟨404, "Not found"⟩
  | some row =>
    if row.storage_type = "local" then
      match row.path with
      | none => Except.error ⟨404, "File missing on disk"⟩
      | some p =>
        if p = "" then Except.error ⟨404, "File missing on disk"⟩
        else
          match Disk.readBytes st.disk p with
          | none => Except.error ⟨404, "File missing on disk"⟩
          | some b =>
            Except.ok ⟨b, pyOr row.content_type "application/octet-stream",
                       contentDisposition row.filename⟩
    else
      Except.ok ⟨row.data, pyOr row.content_type "application/octet-stream",
                 contentDisposition row.filename⟩

/-- `POST /delete/{file_id}` (lines 353-368).  Look up the row (404 when
absent); when `storage_type == "local"` and the path is truthy and the
file exists, try `os.remove` — a failure is only logged (line 364).
`removeFails p` models whether `os.remove(p)` raises. The row is deleted
(line 366) and a 303 redirect returned in every found case. -/
def delete_file (st : St) (fid : Nat) (removeFails : String → Bool) :
    HandlerResult :=
  match lookup st.store fid with
  | none => ⟨Except.error ⟨404, "Not found"⟩, st, []⟩
  | some row =>
    let cleanup : Disk × List Ev :=
      if row.storage_type = "local" then
        match row.path with
        | some p =>
          if p = "" then (st.disk, [])
          else if Disk.pathExists st.disk p then
            if removeFails p then (st.disk, [Ev.logWarn p])
            else (Disk.removePath st.disk p, [Ev.diskRemove p])
          else (st.disk, [])
        | none => (st.disk, [])
      else (st.disk, [])
    ⟨Except.ok (UpResp.redirect "." 303),
     ⟨st.store.filter (fun r => r.id != fid), cleanup.1⟩,
     cleanup.2⟩

/-! ## Presentation layer (`render_index`, lines 77-274) -/

/-- markupsafe's HTML escaping of one character — what Jinja's autoescaping
applies to each character of an interpolated value: the five
markup-significant characters become entities (`&amp;` `&lt;` `&gt;`
`&#34;` `&#39;`), every other character passes through. -/
def escChar (c : Char) : List Char :=
  if c = '&' then ['&', 'a', 'm', 'p', ';']
  else if c = '<' then ['&', 'l', 't', ';']
  else if c = '>' then ['&', 'g', 't', ';']
  else if c = '"' then ['&', '#', '3', '4', ';']
  else if c = Char.ofNat 39 then ['&', '#', '3', '9', ';']
  else [c]

/-- markupsafe's HTML escaping of a string. -/
def htmlEscape (s : String) : String :=
  String.mk (s.toList.flatMap escChar)

/-- Line 266 builds the environment with
`autoescape=select_autoescape(["html", "xml"])`, and line 269 loads the
template with `from_string`.  `select_autoescape` decides by the template's
filename extension; a string template has no filename and receives the
function's `default_for_string` value, whose default is `True` (jinja2
signature: `select_autoescape(enabled_extensions=("html", "htm", "xml"),
disabled_extensions=(), default_for_string=True, default=False)`).  Hence
autoescaping is enabled for `INDEX_HTML`. -/
def autoescapeOn : Bool := true

/-- Rendering of one `{{ value }}` interpolation: escaped when the
environment autoescapes, the raw string otherwise. -/
def interp (v : String) : String :=
  if autoescapeOn then htmlEscape v else v

/-- Python `"{:,}".format(n)` (line 227): decimal digits grouped in threes
by commas, building from the least significant digit. -/
def formatThousands (n : Nat) : String :=
  String.mk (((toString n).toList.reverse.enum.map
    (fun p => if p.1 ≠ 0 ∧ p.1 % 3 = 0 then [',', p.2] else [p.2])).flatten.reverse)

/-- One `{% for f in files %}` table row (template lines 224-248), with the
template's inter-tag whitespace elided.  Every record value is injected
through `interp`, exactly the places the template writes `{{ … }}`:
filename, formatted size, `content_type or "n/a"`, storage type,
timestamp, and the id inside the download link and delete form action. -/
def renderRow (f : FileRecord) : String :=
  "<tr><td>" ++ interp f.filename
  ++ "</td><td>" ++ interp (formatThousands f.size_bytes) ++ " B</td><td>"
  ++ interp (pyOr f.content_type "n/a")
  ++ "</td><td>" ++ interp f.storage_type
  ++ "</td><td>" ++ interp (toString f.uploaded_at)
  ++ "</td><td><a href=\"download/" ++ interp (toString f.id)
  ++ "\">Download</a><form method=\"POST\" action=\"delete/"
  ++ interp (toString f.id)
  ++ "\" class=\"inline-form\"><gcds-button type=\"submit\">Delete</gcds-button></form></td></tr>"

/-- Static page chrome before the files table (template lines 77-207:
document head, design-system header, upload form). It interpolates no
record value and is abbreviated. -/
def PAGE_TOP : String :=
  "<!DOCTYPE html><html><head><title>Local File Uploader</title></head><body>"

/-- Table opening markup (template lines 211-223). -/
def TABLE_TOP : String :=
  "<gcds-table caption=\"Uploaded files\"><table><thead><tr><th>Name</th><th>Size</th><th>Type</th><th>Stored</th><th>Uploaded</th><th>Actions</th></tr></thead><tbody>"

/-- Table closing markup (template lines 249-251). -/
def TABLE_END : String := "</tbody></table></gcds-table>"

/-- Static page chrome after the files table (template lines 253-263). -/
def PAGE_END : String := "</body></html>"

/-- `render_index(rows)` (lines 268-274): the template shows
`<p>No files yet.</p>` when `files|length == 0`, otherwise one table row
per record. -/
def render_index (rows : List FileRecord) : String :=
  PAGE_TOP
  ++ (if rows.length = 0 then "<p>No files yet.</p>"
      else TABLE_TOP ++ String.join (rows.map renderRow) ++ TABLE_END)
  ++ PAGE_END

/-- Record-level storage invariant (claim C7): inline records carry the
bytes and no path, local records a path and no bytes. -/
def recordInv (r : FileRecord) : Bool :=
  (r.storage_type == "db" && !r.data.isEmpty && r.path == none)
  || (r.storage_type == "local" && r.path.isSome && r.data.isEmpty)

/-! ## Concrete states and requests used by the witnesses -/

/-- The empty durable state. -/
def st0 : St := ⟨[], []⟩

/-- A request whose content-length header (1) exceeds a 0 MB limit. -/
def reqOverHeader : UploadRequest := ⟨some 1, none, none, [65], none⟩

/-- A request with an empty body. -/
def reqEmptyBody : UploadRequest := ⟨none, none, none, [], none⟩

/-- A small inline-mode upload. -/
def reqSmallDb : UploadRequest :=
  ⟨none, some "a.txt", some "text/plain", [10, 20], some "db"⟩

/-- A small local-mode upload. -/
def reqSmallLocal : UploadRequest :=
  ⟨none, some "a.txt", some "text/plain", [10, 20], some "local"⟩

/-- A request with an unrecognized `storage` value. -/
def reqUpper : UploadRequest :=
  ⟨none, some "a.txt", some "text/plain", [65, 66], some "LOCAL"⟩

/-! ## Helper lemmas -/

theorem toList_eq_nil_iff (s : String) : s.toList = [] ↔ s = "" := by
  rw [String.ext_iff]
  exact Iff.rfl

theorem safeName_ne_empty (fn : Option String) : safeName fn ≠ "" := by
  have key : ∀ t : String, t ≠ "" → String.mk (t.toList.take 512) ≠ "" := by
    intro t ht h
    have h2 : t.toList.take 512 = [] := congrArg String.toList h
    rw [List.take_eq_nil_iff] at h2
    rcases h2 with h2 | h2
    all_goals first
      | exact absurd h2 (by decide)
      | exact ht ((toList_eq_nil_iff t).mp h2)
  unfold safeName
  rcases fn with _ | s
  · exact key "unnamed" (by decide)
  · show String.mk ((if s = "" then "unnamed" else s).toList.take 512) ≠ ""
    by_cases hs : s = ""
    · rw [if_pos hs]
      exact key "unnamed" (by decide)
    · rw [if_neg hs]
      exact key s hs

theorem localPath_ne_empty (rid : Nat) (name : String) :
    localPath rid name ≠ "" := by
  intro h
  have h2 := congrArg String.length h
  simp only [localPath, String.length_append] at h2
  have h3 : UPLOAD_DIR.length = 12 := by decide
  have h4 : ("" : String).length = 0 := by decide
  have h5 : ("/" : String).length = 1 := by decide
  omega

theorem lookup_append_new (store : List FileRecord) (r : FileRecord)
    (h : lookup store r.id = none) : lookup (store ++ [r]) r.id = some r := by
  unfold lookup at h ⊢
  rw [List.find?_append, h]
  simp

theorem readBytes_write_self (d : Disk) (p : String) (b : Bytes) :
    Disk.readBytes (Disk.writeBytes d p b) p = some b := by
  simp [Disk.readBytes, Disk.writeBytes, List.find?]

theorem readBytes_empty_key (d : Disk) (hd : ∀ e ∈ d, e.1 ≠ "") :
    Disk.readBytes d "" = none := by
  unfold Disk.readBytes
  cases hfind : d.find? (fun e => e.1 == "") with
  | none => rfl
  | some e =>
    have hmem := List.mem_of_find?_eq_some hfind
    have hpred := List.find?_some hfind
    simp only [beq_iff_eq] at hpred
    exact absurd hpred (hd e hmem)

theorem lookup_filter_self (store : List FileRecord) (fid : Nat) :
    lookup (store.filter (fun r => r.id != fid)) fid = none := by
  unfold lookup
  rw [List.find?_eq_none]
  intro x hx
  rw [List.mem_filter] at hx
  simpa using hx.2

theorem pathExists_remove_self (d : Disk) (p : String) :
    Disk.pathExists (Disk.removePath d p) p = false := by
  unfold Disk.pathExists Disk.readBytes Disk.removePath
  have h : (d.filter (fun e => e.1 != p)).find? (fun e => e.1 == p) = none := by
    rw [List.find?_eq_none]
    intro x hx
    rw [List.mem_filter] at hx
    simpa using hx.2
  rw [h]
  rfl

/-! ## Claim C2: size-limit enforcement -/

/-- Claim C2 (counterexample): with the configured maximum set to 0 MB, a
1-byte upload with no content-length header succeeds and inserts a record,
although its actual body size (1 byte, read at line 295-296) exceeds the
configured maximum (0 bytes): the handler never checks the actual size. -/
theorem C2_counterexample :
    (upload 0 ⟨[], []⟩ ⟨none, some "a.txt", some "text/plain", [65], none⟩ 1 0).out
      = Except.ok (UpResp.redirect "." 303)
    ∧ ([65] : Bytes).length > maxBytes 0
    ∧ (upload 0 ⟨[], []⟩ ⟨none, some "a.txt", some "text/plain", [65], none⟩ 1 0).st.store
      = [dbRecord ⟨none, some "a.txt", some "text/plain", [65], none⟩ 1 0] := by
  decide

/-- Claim C2 (amended): an upload fails with 413 exactly when the
content-length header is present and exceeds the configured maximum; when
that check fires the state is unchanged and the handler's only effect is
the form parse (no insert, no disk write).  The actual body size is never
compared against the maximum: an upload succeeds exactly when the header
check passes and the body is non-empty, no matter how large the body. -/
theorem upload_size_enforcement (mb : Nat) (st : St) (req : UploadRequest)
    (rid now : Nat) :
    ((upload mb st req rid now).out = Except.error ⟨413, "File too large"⟩
      ↔ clExceeds mb req.contentLength = true)
    ∧ (clExceeds mb req.contentLength = true →
        (upload mb st req rid now).st = st
        ∧ (upload mb st req rid now).events = [Ev.formParse])
    ∧ ((∃ resp, (upload mb st req rid now).out = Except.ok resp)
      ↔ (clExceeds mb req.contentLength = false ∧ req.body ≠ [])) := by
  unfold upload
  split_ifs with h1 h2 h3 <;>
    simp_all [List.length_eq_zero]

/-- Witness for `upload_size_enforcement` at a concrete over-limit header. -/
theorem upload_size_enforcement_witness :
    ((upload 0 st0 reqOverHeader 1 0).out = Except.error ⟨413, "File too large"⟩
      ↔ clExceeds 0 reqOverHeader.contentLength = true)
    ∧ (clExceeds 0 reqOverHeader.contentLength = true →
        (upload 0 st0 reqOverHeader 1 0).st = st0
        ∧ (upload 0 st0 reqOverHeader 1 0).events = [Ev.formParse])
    ∧ ((∃ resp, (upload 0 st0 reqOverHeader 1 0).out = Except.ok resp)
      ↔ (clExceeds 0 reqOverHeader.contentLength = false ∧ reqOverHeader.body ≠ [])) :=
  upload_size_enforcement 0 st0 reqOverHeader 1 0

/-! ## Claim C3: empty upload -/

/-- Claim C3 (counterexample): an upload whose body is empty but whose
content-length header claims 104857601 bytes (over a 100 MB limit) fails
with 413 "File too large" — the line 291 header check fires before the
line 297 empty check — not with 400 BadRequest as the claim states. -/
theorem C3_counterexample :
    ((⟨some 104857601, none, none, [], none⟩ : UploadRequest).body = [])
    ∧ (upload 100 ⟨[], []⟩ ⟨some 104857601, none, none, [], none⟩ 1 0).out
      = Except.error ⟨413, "File too large"⟩
    ∧ (upload 100 ⟨[], []⟩ ⟨some 104857601, none, none, [], none⟩ 1 0).out
      ≠ Except.error ⟨400, "Empty file"⟩ := by
  decide

/-- Claim C3 (amended): an upload with an empty body always fails — with
400 "Empty file", except that when the content-length header is present
and exceeds the configured maximum the 413 check fires first — and in
every case no record is created, nothing is written to disk, and the
durable state is unchanged. -/
theorem upload_empty_body (mb : Nat) (st : St) (req : UploadRequest)
    (rid now : Nat) (h : req.body = []) :
    (upload mb st req rid now).out
      = Except.error (if clExceeds mb req.contentLength
          then ⟨413, "File too large"⟩ else ⟨400, "Empty file"⟩)
    ∧ (upload mb st req rid now).st = st
    ∧ (∀ p b, Ev.diskWrite p b ∉ (upload mb st req rid now).events)
    ∧ (∀ r, Ev.dbInsert r ∉ (upload mb st req rid now).events) := by
  unfold upload
  split_ifs with h1 h2 <;> simp_all

/-- Witness for `upload_empty_body` at a concrete empty request. -/
theorem upload_empty_body_witness :
    (upload 100 st0 reqEmptyBody 1 0).out
      = Except.error (if clExceeds 100 reqEmptyBody.contentLength
          then ⟨413, "File too large"⟩ else ⟨400, "Empty file"⟩)
    ∧ (upload 100 st0 reqEmptyBody 1 0).st = st0
    ∧ (∀ p b, Ev.diskWrite p b ∉ (upload 100 st0 reqEmptyBody 1 0).events)
    ∧ (∀ r, Ev.dbInsert r ∉ (upload 100 st0 reqEmptyBody 1 0).events) :=
  upload_empty_body 100 st0 reqEmptyBody 1 0 rfl

/-! ## Claim C9: validation order of the content-length check -/

/-- Claim C9 (counterexample): at a request whose content-length header (1)
exceeds the configured maximum (0 MB), the handler raises 413 — but its
event trace already contains the `request.form()` multipart parse of line
288, which consumes the whole request body (and FastAPI's `File(...)`
parameter forces that parse even before the handler starts).  So the body
has been read when the check fires, contrary to the claim that it never
is. -/
theorem C9_counterexample :
    (upload 0 ⟨[], []⟩ ⟨some 1, none, none, [65], none⟩ 1 0).out
      = Except.error ⟨413, "File too large"⟩
    ∧ Ev.formParse ∈ (upload 0 ⟨[], []⟩ ⟨some 1, none, none, [65], none⟩ 1 0).events := by
  decide

/-- Claim C9 (amended): when the content-length header is present and
exceeds the configured maximum, the upload fails with 413 and its event
trace is exactly `[formParse]`: `file.read()` is never reached and nothing
is inserted or written, but the multipart body has already been parsed by
`request.form()`, so the check does not prevent reading the body. -/
theorem upload_cl_check_order (mb : Nat) (st : St) (req : UploadRequest)
    (rid now : Nat) (h : clExceeds mb req.contentLength = true) :
    (upload mb st req rid now).out = Except.error ⟨413, "File too large"⟩
    ∧ (upload mb st req rid now).events = [Ev.formParse]
    ∧ (∀ b, Ev.fileRead b ∉ (upload mb st req rid now).events)
    ∧ Ev.formParse ∈ (upload mb st req rid now).events := by
  unfold upload
  simp [h]

/-- Witness for `upload_cl_check_order` at a concrete over-limit header. -/
theorem upload_cl_check_order_witness :
    (upload 0 st0 reqOverHeader 1 0).out = Except.error ⟨413, "File too large"⟩
    ∧ (upload 0 st0 reqOverHeader 1 0).events = [Ev.formParse]
    ∧ (∀ b, Ev.fileRead b ∉ (upload 0 st0 reqOverHeader 1 0).events)
    ∧ Ev.formParse ∈ (upload 0 st0 reqOverHeader 1 0).events :=
  upload_cl_check_order 0 st0 reqOverHeader 1 0 (by decide)

/-! ## Claim C10: storage field defaulting -/

/-- Claim C10: when the `storage` form field is anything but exactly
"local" — absent, "inline", "LOCAL", … — a successful upload stores
inline: the new record is `dbRecord` with `storage_type = "db"`, the full
bytes in `data` and no `path`; the disk is untouched and no disk-write
event occurs. -/
theorem upload_inline_default (mb : Nat) (st : St) (req : UploadRequest)
    (rid now : Nat) (hs : req.storage ≠ some "local") (resp : UpResp)
    (hok : (upload mb st req rid now).out = Except.ok resp) :
    (upload mb st req rid now).st.store = st.store ++ [dbRecord req rid now]
    ∧ (dbRecord req rid now).storage_type = "db"
    ∧ (dbRecord req rid now).data = req.body
    ∧ (dbRecord req rid now).path = none
    ∧ (upload mb st req rid now).st.disk = st.disk
    ∧ (∀ p b, Ev.diskWrite p b ∉ (upload mb st req rid now).events) := by
  have hchoice : ¬ req.storage.getD "db" = "local" := by
    rcases hst : req.storage with _ | s
    · simp
    · simp only [Option.getD_some]
      intro hcon
      exact hs (by rw [hst, hcon])
  cases h1 : clExceeds mb req.contentLength with
  | true => simp [upload, h1] at hok
  | false =>
    by_cases h2 : req.body.length = 0
    · simp [upload, h1, h2] at hok
    · simp [upload, h1, h2, hchoice, dbRecord]

/-- Witness for `upload_inline_default` at storage field "LOCAL". -/
theorem upload_inline_default_witness :
    (upload 100 st0 reqUpper 1 0).st.store = st0.store ++ [dbRecord reqUpper 1 0]
    ∧ (dbRecord reqUpper 1 0).storage_type = "db"
    ∧ (dbRecord reqUpper 1 0).data = reqUpper.body
    ∧ (dbRecord reqUpper 1 0).path = none
    ∧ (upload 100 st0 reqUpper 1 0).st.disk = st0.disk
    ∧ (∀ p b, Ev.diskWrite p b ∉ (upload 100 st0 reqUpper 1 0).events) :=
  upload_inline_default 100 st0 reqUpper 1 0 (by decide) (UpResp.redirect "." 303)
    (by decide)

/-! ## Claim C1: upload/download round trip -/

/-- Claim C1: for any request with a non-empty body within the size limit,
a content-length header that passes the line 291 check, a present
(non-empty) content type and a fresh record id, the upload succeeds with a
303 redirect and downloading the created id from the resulting state
returns exactly the uploaded bytes and the uploaded content type.  The
`storage` field is arbitrary, so this covers the "db" mode and the
"local" mode alike. -/
theorem upload_download_roundtrip (mb : Nat) (st : St) (req : UploadRequest)
    (rid now : Nat) (ct : String)
    (hne : req.body ≠ [])
    (hsz : req.body.length ≤ maxBytes mb)
    (hcl : clExceeds mb req.contentLength = false)
    (hct : req.contentType = some ct) (hctne : ct ≠ "")
    (hfresh : lookup st.store rid = none) :
    (upload mb st req rid now).out = Except.ok (UpResp.redirect "." 303)
    ∧ download (upload mb st req rid now).st rid
      = Except.ok ⟨req.body, ct, contentDisposition (safeName req.filename)⟩ := by
  have h2 : ¬ req.body.length = 0 := by
    simpa [List.length_eq_zero] using hne
  by_cases h3 : req.storage.getD "db" = "local"
  · constructor
    · simp [upload, hcl, h2, h3]
    · have hst : (upload mb st req rid now).st
          = ⟨st.store ++ [localRecord req rid now],
             Disk.writeBytes st.disk (localPath rid (safeName req.filename))
               req.body⟩ := by
        simp [upload, hcl, h2, h3]
      have hlook : lookup (st.store ++ [localRecord req rid now]) rid
          = some (localRecord req rid now) :=
        lookup_append_new st.store _ hfresh
      have hp := localPath_ne_empty rid (safeName req.filename)
      rw [hst]
      simp only [download, hlook]
      simp [localRecord, hp, readBytes_write_self, pyOr, hct, hctne]
  · constructor
    · simp [upload, hcl, h2, h3]
    · have hst : (upload mb st req rid now).st
          = ⟨st.store ++ [dbRecord req rid now], st.disk⟩ := by
        simp [upload, hcl, h2, h3]
      have hlook : lookup (st.store ++ [dbRecord req rid now]) rid
          = some (dbRecord req rid now) :=
        lookup_append_new st.store _ hfresh
      rw [hst]
      simp only [download, hlook]
      simp [dbRecord, pyOr, hct, hctne]

/-- Witness for `upload_download_roundtrip` at a concrete local-mode
upload. -/
theorem upload_download_roundtrip_witness :
    (upload 1 st0 reqSmallLocal 5 7).out = Except.ok (UpResp.redirect "." 303)
    ∧ download (upload 1 st0 reqSmallLocal 5 7).st 5
      = Except.ok ⟨reqSmallLocal.body, "text/plain",
          contentDisposition (safeName reqSmallLocal.filename)⟩ :=
  upload_download_roundtrip 1 st0 reqSmallLocal 5 7 "text/plain"
    (by decide) (by decide) (by decide) (by decide) (by decide) (by decide)

/-! ## Claim C4: filename normalization -/

/-- `safeName` in the claim's terms: the supplied name unchanged when it
has at most 512 characters, its first 512 characters otherwise, and the
placeholder "unnamed" when absent or empty. -/
theorem safeName_cases (fn : Option String) :
    safeName fn = (match fn with
      | none => "unnamed"
      | some s => if s = "" then "unnamed"
          else if s.toList.length ≤ 512 then s
          else String.mk (s.toList.take 512)) := by
  rcases fn with _ | s
  · rfl
  · show String.mk ((if s = "" then "unnamed" else s).toList.take 512)
      = if s = "" then "unnamed"
        else if s.toList.length ≤ 512 then s
        else String.mk (s.toList.take 512)
    by_cases hs : s = ""
    · rw [if_pos hs, if_pos hs]
      decide
    · rw [if_neg hs, if_neg hs]
      by_cases hl : s.toList.length ≤ 512
      · rw [if_pos hl, List.take_of_length_le hl]
        cases s
        rfl
      · rw [if_neg hl]

/-- Claim C4: every record created by a successful upload stores the
supplied filename truncated to its first 512 characters (unchanged when
within 512 characters), the placeholder "unnamed" when the filename is
absent or empty, and never an empty string; and the upload's outcome does
not depend on the filename at all, so no name is ever rejected for its
length. -/
theorem upload_filename_policy (mb : Nat) (st : St) (req : UploadRequest)
    (rid now : Nat) (resp : UpResp)
    (hok : (upload mb st req rid now).out = Except.ok resp) :
    ∃ r, (upload mb st req rid now).st.store = st.store ++ [r]
    ∧ r.filename = (match req.filename with
        | none => "unnamed"
        | some s => if s = "" then "unnamed"
            else if s.toList.length ≤ 512 then s
            else String.mk (s.toList.take 512))
    ∧ r.filename ≠ ""
    ∧ (∀ fn, (upload mb st { req with filename := fn } rid now).out
        = Except.ok resp) := by
  cases h1 : clExceeds mb req.contentLength with
  | true => simp [upload, h1] at hok
  | false =>
    by_cases h2 : req.body.length = 0
    · simp [upload, h1, h2] at hok
    · have hresp : resp = UpResp.redirect "." 303 := by
        by_cases h3 : req.storage.getD "db" = "local" <;>
          simp [upload, h1, h2, h3] at hok <;> exact hok.symm
      subst hresp
      by_cases h3 : req.storage.getD "db" = "local"
      · refine ⟨localRecord req rid now, ?_, ?_, ?_, ?_⟩
        · simp [upload, h1, h2, h3]
        · simpa [localRecord] using safeName_cases req.filename
        · simpa [localRecord] using safeName_ne_empty req.filename
        · intro fn
          simp [upload, h1, h2, h3]
      · refine ⟨dbRecord req rid now, ?_, ?_, ?_, ?_⟩
        · simp [upload, h1, h2, h3]
        · simpa [dbRecord] using safeName_cases req.filename
        · simpa [dbRecord] using safeName_ne_empty req.filename
        · intro fn
          simp [upload, h1, h2, h3]

/-- Witness for `upload_filename_policy` at a concrete upload. -/
theorem upload_filename_policy_witness :
    ∃ r, (upload 100 st0 reqSmallDb 1 0).st.store = st0.store ++ [r]
    ∧ r.filename = (match reqSmallDb.filename with
        | none => "unnamed"
        | some s => if s = "" then "unnamed"
            else if s.toList.length ≤ 512 then s
            else String.mk (s.toList.take 512))
    ∧ r.filename ≠ ""
    ∧ (∀ fn, (upload 100 st0 { reqSmallDb with filename := fn } 1 0).out
        = Except.ok (UpResp.redirect "." 303)) :=
  upload_filename_policy 100 st0 reqSmallDb 1 0 (UpResp.redirect "." 303) (by decide)

/-! ## Claim C7: storage invariant -/

theorem recordInv_xor (r : FileRecord) (h : recordInv r = true) :
    (r.data ≠ [] ∧ r.path = none) ∨ (r.data = [] ∧ r.path ≠ none) := by
  unfold recordInv at h
  simp only [Bool.or_eq_true, Bool.and_eq_true, beq_iff_eq,
             Bool.not_eq_true', Option.isSome_iff_exists] at h
  rcases h with ⟨⟨_, hdata⟩, hpath⟩ | ⟨⟨_, ⟨p, hp⟩⟩, hdata⟩
  · left
    exact ⟨by simpa [List.isEmpty_iff] using hdata, hpath⟩
  · right
    constructor
    · simpa [List.isEmpty_iff] using hdata
    · rw [hp]
      simp

/-- Claim C7: every record created by a successful upload satisfies the
storage invariant — `storage_type` "db" with non-empty `data` and no
`path` (inline), or `storage_type` "local" with a `path` and empty `data`
— hence exactly one of (`data` non-empty) / (`path` set) holds; and the
invariant is preserved by every state-changing operation: after an upload
or a delete, every stored record still satisfies it (delete only removes
records, and no operation updates a record after creation). -/
theorem storage_invariant (mb : Nat) (st : St) (req : UploadRequest)
    (rid now fid : Nat) (oracle : String → Bool)
    (hst : ∀ r ∈ st.store, recordInv r = true) :
    (∀ r ∈ (upload mb st req rid now).st.store,
        recordInv r = true
        ∧ ((r.data ≠ [] ∧ r.path = none) ∨ (r.data = [] ∧ r.path ≠ none)))
    ∧ (∀ r ∈ (delete_file st fid oracle).st.store,
        r ∈ st.store ∧ recordInv r = true) := by
  constructor
  · intro r hr
    have hinv : recordInv r = true := by
      cases h1 : clExceeds mb req.contentLength with
      | true =>
        simp [upload, h1] at hr
        exact hst r hr
      | false =>
        by_cases h2 : req.body.length = 0
        · simp [upload, h1, h2] at hr
          exact hst r hr
        · by_cases h3 : req.storage.getD "db" = "local"
          · simp [upload, h1, h2, h3] at hr
            rcases hr with hr | hr
            · exact hst r hr
            · subst hr
              simp [recordInv, localRecord]
          · simp [upload, h1, h2, h3] at hr
            rcases hr with hr | hr
            · exact hst r hr
            · subst hr
              have hne : req.body ≠ [] := by
                intro hcon
                exact h2 (by simp [hcon])
              simp [recordInv, dbRecord, List.isEmpty_iff, hne]
    exact ⟨hinv, recordInv_xor r hinv⟩
  · intro r hr
    cases hl : lookup st.store fid with
    | none =>
      simp [delete_file, hl] at hr
      exact ⟨hr, hst r hr⟩
    | some row =>
      simp only [delete_file, hl] at hr
      have hmem : r ∈ st.store := by
        have := hr
        rw [List.mem_filter] at this
        exact this.1
      exact ⟨hmem, hst r hmem⟩

/-- Witness for `storage_invariant` at a concrete state and upload. -/
theorem storage_invariant_witness :
    (∀ r ∈ (upload 100 st0 reqSmallLocal 1 0).st.store,
        recordInv r = true
        ∧ ((r.data ≠ [] ∧ r.path = none) ∨ (r.data = [] ∧ r.path ≠ none)))
    ∧ (∀ r ∈ (delete_file st0 1 (fun _ => false)).st.store,
        r ∈ st0.store ∧ recordInv r = true) :=
  storage_invariant 100 st0 reqSmallLocal 1 0 1 (fun _ => false)
    (by intro r hr; simp [st0] at hr)

/-! ## Claim C5: download semantics -/

/-- Claim C5: download returns an error (always a 404) exactly when no
record with the id exists, or the record is local-disk with an absent path
(Python treats an empty path string as absent) or no file at that path;
in every other case it returns the stored bytes — `row["data"]` for
inline records, the disk contents for local ones — with a
`Content-Disposition` attachment header carrying the stored filename and
the stored content type, "application/octet-stream" when that is absent.
The hypothesis says the disk holds no file under the empty path, true of
any real filesystem. -/
theorem download_not_found_iff (st : St) (fid : Nat)
    (hd : ∀ e ∈ st.disk, e.1 ≠ "") :
    ((∃ e, download st fid = Except.error e) ↔
      (lookup st.store fid = none
        ∨ ∃ r, lookup st.store fid = some r ∧ r.storage_type = "local"
            ∧ (r.path = none
               ∨ ∃ p, r.path = some p ∧ Disk.readBytes st.disk p = none)))
    ∧ (∀ e, download st fid = Except.error e → e.status = 404)
    ∧ (∀ r, lookup st.store fid = some r → ¬ r.storage_type = "local" →
        download st fid = Except.ok ⟨r.data,
          pyOr r.content_type "application/octet-stream",
          contentDisposition r.filename⟩)
    ∧ (∀ r p b, lookup st.store fid = some r → r.storage_type = "local" →
        r.path = some p → Disk.readBytes st.disk p = some b →
        download st fid = Except.ok ⟨b,
          pyOr r.content_type "application/octet-stream",
          contentDisposition r.filename⟩) := by
  cases hl : lookup st.store fid with
  | none =>
    have hdl : download st fid = Except.error ⟨404, "Not found"⟩ := by
      simp [download, hl]
    refine ⟨iff_of_true ⟨_, hdl⟩ (Or.inl rfl), ?_, ?_, ?_⟩
    · intro e he
      rw [hdl] at he
      injection he with he
      rw [← he]
    · intro r hr
      exact absurd hr (by simp)
    · intro r p b hr
      exact absurd hr (by simp)
  | some row =>
    by_cases hs : row.storage_type = "local"
    · cases hp : row.path with
      | none =>
        have hdl : download st fid = Except.error ⟨404, "File missing on disk"⟩ := by
          simp [download, hl, hs, hp]
        refine ⟨iff_of_true ⟨_, hdl⟩ (Or.inr ⟨row, rfl, hs, Or.inl hp⟩), ?_, ?_, ?_⟩
        · intro e he
          rw [hdl] at he
          injection he with he
          rw [← he]
        · intro r hr hns
          injection hr with hr
          subst hr
          exact absurd hs hns
        · intro r p b hr hsl hpath
          injection hr with hr
          subst hr
          rw [hp] at hpath
          exact absurd hpath (by simp)
      | some p =>
        by_cases hpe : p = ""
        · subst hpe
          have hre := readBytes_empty_key st.disk hd
          have hdl : download st fid = Except.error ⟨404, "File missing on disk"⟩ := by
            simp [download, hl, hs, hp]
          refine ⟨iff_of_true ⟨_, hdl⟩
            (Or.inr ⟨row, rfl, hs, Or.inr ⟨"", hp, hre⟩⟩), ?_, ?_, ?_⟩
          · intro e he
            rw [hdl] at he
            injection he with he
            rw [← he]
          · intro r hr hns
            injection hr with hr
            subst hr
            exact absurd hs hns
          · intro r p' b hr hsl hpath hread
            injection hr with hr
            subst hr
            rw [hp] at hpath
            injection hpath with hpath
            subst hpath
            rw [hre] at hread
            exact absurd hread (by simp)
        · cases hr : Disk.readBytes st.disk p with
          | none =>
            have hdl : download st fid = Except.error ⟨404, "File missing on disk"⟩ := by
              simp [download, hl, hs, hp, hpe, hr]
            refine ⟨iff_of_true ⟨_, hdl⟩
              (Or.inr ⟨row, rfl, hs, Or.inr ⟨p, hp, hr⟩⟩), ?_, ?_, ?_⟩
            · intro e he
              rw [hdl] at he
              injection he with he
              rw [← he]
            · intro r hr' hns
              injection hr' with hr'
              subst hr'
              exact absurd hs hns
            · intro r p' b hr' hsl hpath hread
              injection hr' with hr'
              subst hr'
              rw [hp] at hpath
              injection hpath with hpath
              subst hpath
              rw [hr] at hread
              exact absurd hread (by simp)
          | some b =>
            have hdl : download st fid = Except.ok ⟨b,
                pyOr row.content_type "application/octet-stream",
                contentDisposition row.filename⟩ := by
              simp [download, hl, hs, hp, hpe, hr, pyOr]
            refine ⟨?_, ?_, ?_, ?_⟩
            · refine iff_of_false ?_ ?_
              · rintro ⟨e, he⟩
                rw [hdl] at he
                exact absurd he (by simp)
              · rintro (h | ⟨r, hr', hsl, hcond⟩)
                · exact absurd h (by simp)
                · injection hr' with hr'
                  subst hr'
                  rcases hcond with hcond | ⟨p', hp', hread⟩
                  · rw [hp] at hcond
                    exact absurd hcond (by simp)
                  · rw [hp] at hp'
                    injection hp' with hp'
                    subst hp'
                    rw [hr] at hread
                    exact absurd hread (by simp)
            · intro e he
              rw [hdl] at he
              exact absurd he (by simp)
            · intro r hr' hns
              injection hr' with hr'
              subst hr'
              exact absurd hs hns
            · intro r p' b' hr' hsl hpath hread
              injection hr' with hr'
              subst hr'
              rw [hp] at hpath
              injection hpath with hpath
              subst hpath
              rw [hr] at hread
              injection hread with hread
              subst hread
              exact hdl
    · have hdl : download st fid = Except.ok ⟨row.data,
          pyOr row.content_type "application/octet-stream",
          contentDisposition row.filename⟩ := by
        simp [download, hl, hs, pyOr]
      refine ⟨?_, ?_, ?_, ?_⟩
      · refine iff_of_false ?_ ?_
        · rintro ⟨e, he⟩
          rw [hdl] at he
          exact absurd he (by simp)
        · rintro (h | ⟨r, hr', hsl, _⟩)
          · exact absurd h (by simp)
          · injection hr' with hr'
            subst hr'
            exact hs hsl
      · intro e he
        rw [hdl] at he
        exact absurd he (by simp)
      · intro r hr' hns
        injection hr' with hr'
        subst hr'
        exact hdl
      · intro r p b hr' hsl
        injection hr' with hr'
        subst hr'
        exact absurd hsl hs

/-- Witness for `download_not_found_iff` at a concrete one-record state. -/
theorem download_not_found_iff_witness :
    ((∃ e, download ⟨[dbRecord reqSmallDb 1 0], []⟩ 1 = Except.error e) ↔
      (lookup [dbRecord reqSmallDb 1 0] 1 = none
        ∨ ∃ r, lookup [dbRecord reqSmallDb 1 0] 1 = some r
            ∧ r.storage_type = "local"
            ∧ (r.path = none
               ∨ ∃ p, r.path = some p ∧ Disk.readBytes [] p = none)))
    ∧ (∀ e, download ⟨[dbRecord reqSmallDb 1 0], []⟩ 1 = Except.error e →
        e.status = 404)
    ∧ (∀ r, lookup [dbRecord reqSmallDb 1 0] 1 = some r →
        ¬ r.storage_type = "local" →
        download ⟨[dbRecord reqSmallDb 1 0], []⟩ 1 = Except.ok ⟨r.data,
          pyOr r.content_type "application/octet-stream",
          contentDisposition r.filename⟩)
    ∧ (∀ r p b, lookup [dbRecord reqSmallDb 1 0] 1 = some r →
        r.storage_type = "local" → r.path = some p →
        Disk.readBytes [] p = some b →
        download ⟨[dbRecord reqSmallDb 1 0], []⟩ 1 = Except.ok ⟨b,
          pyOr r.content_type "application/octet-stream",
          contentDisposition r.filename⟩) :=
  download_not_found_iff ⟨[dbRecord reqSmallDb 1 0], []⟩ 1
    (by intro e he; simp at he)

/-! ## Claim C6: delete semantics -/

/-- Claim C6: deleting an existing record always removes the row and
returns a 303 redirect, regardless of whether removing a backing disk
file succeeds: for a local record whose file exists, the file is removed
when `os.remove` succeeds, and an `os.remove` failure only logs a warning
and leaves the disk as it was, never failing the request; when the file
is already missing the disk is untouched and the delete still succeeds;
deleting an id with no record returns a 404 and changes nothing. -/
theorem delete_semantics (st : St) (fid : Nat) (oracle : String → Bool) :
    (lookup st.store fid = none →
      (delete_file st fid oracle).out = Except.error ⟨404, "Not found"⟩
      ∧ (delete_file st fid oracle).st = st)
    ∧ (∀ row, lookup st.store fid = some row →
        (delete_file st fid oracle).out = Except.ok (UpResp.redirect "." 303)
        ∧ (delete_file st fid oracle).st.store
            = st.store.filter (fun r => r.id != fid)
        ∧ lookup (delete_file st fid oracle).st.store fid = none
        ∧ (∀ p, row.storage_type = "local" → row.path = some p → ¬ p = "" →
            Disk.pathExists st.disk p = true →
              (oracle p = false →
                (delete_file st fid oracle).st.disk = Disk.removePath st.disk p
                ∧ Disk.pathExists (delete_file st fid oracle).st.disk p = false)
              ∧ (oracle p = true →
                (delete_file st fid oracle).st.disk = st.disk
                ∧ Ev.logWarn p ∈ (delete_file st fid oracle).events))
        ∧ (∀ p, row.path = some p → Disk.pathExists st.disk p = false →
            (delete_file st fid oracle).st.disk = st.disk)) := by
  cases hl : lookup st.store fid with
  | none =>
    constructor
    · intro _
      simp [delete_file, hl]
    · intro row hrow
      exact absurd hrow (by simp)
  | some row =>
    constructor
    · intro hnone
      exact absurd hnone (by simp)
    · intro row' hrow'
      have heq : row = row' := by injection hrow'
      subst heq
      refine ⟨?_, ?_, ?_, ?_, ?_⟩
      · simp [delete_file, hl]
      · simp [delete_file, hl]
      · have hset : (delete_file st fid oracle).st.store
            = st.store.filter (fun r => r.id != fid) := by
          simp [delete_file, hl]
        rw [hset]
        exact lookup_filter_self st.store fid
      · intro p hsl hpp hpe hex
        constructor
        · intro hfail
          constructor
          · simp [delete_file, hl, hsl, hpp, hpe, hex, hfail]
          · have hdisk : (delete_file st fid oracle).st.disk
                = Disk.removePath st.disk p := by
              simp [delete_file, hl, hsl, hpp, hpe, hex, hfail]
            rw [hdisk]
            exact pathExists_remove_self st.disk p
        · intro hfail
          constructor
          · simp [delete_file, hl, hsl, hpp, hpe, hex, hfail]
          · simp [delete_file, hl, hsl, hpp, hpe, hex, hfail]
      · intro p hpp hex
        by_cases hsl : row.storage_type = "local"
        · by_cases hpe : p = ""
          · simp [delete_file, hl, hsl, hpp, hpe]
          · simp [delete_file, hl, hsl, hpp, hpe, hex]
        · simp [delete_file, hl, hsl]

/-- Witness for `delete_semantics` at a concrete one-record local state. -/
theorem delete_semantics_witness :
    (lookup [localRecord reqSmallLocal 5 7] 5 = none →
      (delete_file ⟨[localRecord reqSmallLocal 5 7],
          [(localPath 5 (safeName reqSmallLocal.filename), reqSmallLocal.body)]⟩
          5 (fun _ => false)).out = Except.error ⟨404, "Not found"⟩
      ∧ (delete_file ⟨[localRecord reqSmallLocal 5 7],
          [(localPath 5 (safeName reqSmallLocal.filename), reqSmallLocal.body)]⟩
          5 (fun _ => false)).st
        = ⟨[localRecord reqSmallLocal 5 7],
          [(localPath 5 (safeName reqSmallLocal.filename), reqSmallLocal.body)]⟩)
    ∧ (∀ row, lookup [localRecord reqSmallLocal 5 7] 5 = some row →
        (delete_file ⟨[localRecord reqSmallLocal 5 7],
          [(localPath 5 (safeName reqSmallLocal.filename), reqSmallLocal.body)]⟩
          5 (fun _ => false)).out = Except.ok (UpResp.redirect "." 303)
        ∧ (delete_file ⟨[localRecord reqSmallLocal 5 7],
          [(localPath 5 (safeName reqSmallLocal.filename), reqSmallLocal.body)]⟩
          5 (fun _ => false)).st.store
            = [localRecord reqSmallLocal 5 7].filter (fun r => r.id != 5)
        ∧ lookup (delete_file ⟨[localRecord reqSmallLocal 5 7],
          [(localPath 5 (safeName reqSmallLocal.filename), reqSmallLocal.body)]⟩
          5 (fun _ => false)).st.store 5 = none
        ∧ (∀ p, row.storage_type = "local" → row.path = some p → ¬ p = "" →
            Disk.pathExists
              [(localPath 5 (safeName reqSmallLocal.filename), reqSmallLocal.body)]
              p = true →
              ((fun _ => false) p = false →
                (delete_file ⟨[localRecord reqSmallLocal 5 7],
                  [(localPath 5 (safeName reqSmallLocal.filename), reqSmallLocal.body)]⟩
                  5 (fun _ => false)).st.disk
                  = Disk.removePath
                      [(localPath 5 (safeName reqSmallLocal.filename), reqSmallLocal.body)] p
                ∧ Disk.pathExists (delete_file ⟨[localRecord reqSmallLocal 5 7],
                    [(localPath 5 (safeName reqSmallLocal.filename), reqSmallLocal.body)]⟩
                    5 (fun _ => false)).st.disk p = false)
              ∧ ((fun _ => false) p = true →
                (delete_file ⟨[localRecord reqSmallLocal 5 7],
                  [(localPath 5 (safeName reqSmallLocal.filename), reqSmallLocal.body)]⟩
                  5 (fun _ => false)).st.disk
                  = [(localPath 5 (safeName reqSmallLocal.filename), reqSmallLocal.body)]
                ∧ Ev.logWarn p ∈ (delete_file ⟨[localRecord reqSmallLocal 5 7],
                    [(localPath 5 (safeName reqSmallLocal.filename), reqSmallLocal.body)]⟩
                    5 (fun _ => false)).events))
        ∧ (∀ p, row.path = some p →
            Disk.pathExists
              [(localPath 5 (safeName reqSmallLocal.filename), reqSmallLocal.body)]
              p = false →
            (delete_file ⟨[localRecord reqSmallLocal 5 7],
              [(localPath 5 (safeName reqSmallLocal.filename), reqSmallLocal.body)]⟩
              5 (fun _ => false)).st.disk
              = [(localPath 5 (safeName reqSmallLocal.filename), reqSmallLocal.body)])) :=
  delete_semantics
    ⟨[localRecord reqSmallLocal 5 7],
     [(localPath 5 (safeName reqSmallLocal.filename), reqSmallLocal.body)]⟩
    5 (fun _ => false)

/-! ## Claim C8: HTML escaping of the listing page -/

theorem escChar_safe (a c : Char) (hc : c ∈ escChar a) :
    c ≠ '<' ∧ c ≠ '>' ∧ c ≠ '"' ∧ c ≠ Char.ofNat 39 := by
  unfold escChar at hc
  split_ifs at hc with h1 h2 h3 h4 h5
  · simp at hc
    rcases hc with rfl | rfl | rfl | rfl | rfl <;> refine ⟨?_, ?_, ?_, ?_⟩ <;> decide
  · simp at hc
    rcases hc with rfl | rfl | rfl | rfl <;> refine ⟨?_, ?_, ?_, ?_⟩ <;> decide
  · simp at hc
    rcases hc with rfl | rfl | rfl | rfl <;> refine ⟨?_, ?_, ?_, ?_⟩ <;> decide
  · simp at hc
    rcases hc with rfl | rfl | rfl | rfl | rfl <;> refine ⟨?_, ?_, ?_, ?_⟩ <;> decide
  · simp at hc
    rcases hc with rfl | rfl | rfl | rfl | rfl <;> refine ⟨?_, ?_, ?_, ?_⟩ <;> decide
  · simp at hc
    subst hc
    exact ⟨h2, h3, h4, h5⟩

/-- Claim C8: the rendered listing page HTML-escapes every interpolated
record value.  Since the jinja environment autoescapes the `from_string`
template (line 266: `select_autoescape`, whose `default_for_string`
defaults to `True`), every template interpolation passes through
markupsafe's escaping: the row rendered for any record applies
`htmlEscape` to the filename, the formatted size, the content type (or
"n/a"), the storage type, the timestamp and the id (first conjunct); an
escaped value contains none of the markup-significant characters `<`,
`>`, `"`, `'`, so no stored value can open a tag or break out of an
attribute (second conjunct); concretely, a filename
`<script>alert(1)</script>` renders as its escaped entity form (third
conjunct). -/
theorem render_index_escapes :
    (∀ f : FileRecord, renderRow f
      = "<tr><td>" ++ htmlEscape f.filename
        ++ "</td><td>" ++ htmlEscape (formatThousands f.size_bytes)
        ++ " B</td><td>" ++ htmlEscape (pyOr f.content_type "n/a")
        ++ "</td><td>" ++ htmlEscape f.storage_type
        ++ "</td><td>" ++ htmlEscape (toString f.uploaded_at)
        ++ "</td><td><a href=\"download/" ++ htmlEscape (toString f.id)
        ++ "\">Download</a><form method=\"POST\" action=\"delete/"
        ++ htmlEscape (toString f.id)
        ++ "\" class=\"inline-form\"><gcds-button type=\"submit\">Delete</gcds-button></form></td></tr>")
    ∧ (∀ v : String, ∀ c ∈ (htmlEscape v).toList,
        c ≠ '<' ∧ c ≠ '>' ∧ c ≠ '"' ∧ c ≠ Char.ofNat 39)
    ∧ htmlEscape "<script>alert(1)</script>"
      = "&lt;script&gt;alert(1)&lt;/script&gt;" := by
  refine ⟨?_, ?_, ?_⟩
  · intro f
    simp [renderRow, interp, autoescapeOn]
  · intro v c hc
    have hc2 : c ∈ v.toList.flatMap escChar := hc
    rw [List.mem_flatMap] at hc2
    rcases hc2 with ⟨a, _, hca⟩
    exact escChar_safe a c hca
  · decide

end Uploader
